import Mathlib

/-!
Shallow embedding of the three-way merge decision policy of
`lib/yaml/merge3/visitor.go` (package `merge3`).

The visitor consumes a `Sources` triple (Origin, Updated, Dest), each a
possibly-absent reference to a YAML node, and decides the merged node for
the current position: keep Dest, take Updated, synthesize a fresh empty
container, return the Clear sentinel (`walk.ClearNode`), or return no value
(a nil node).  Go's `*yaml.RNode` references are embedded as `Option YNode`
(`none` = nil pointer / nil `YNode()`, i.e. the position is absent); the
Clear sentinel is a distinct constructor of `VisitResult`.  The scoped
style mutation performed by `getStrValues` is embedded by explicit state
passing: the functions that mutate node styles return the post-call
`Sources` value alongside their result.
-/

namespace merge3

/-- Node kinds of the underlying YAML document model (`yaml.Node.Kind`). -/
inductive Kind where
  | DocumentNode
  | SequenceNode
  | MappingNode
  | ScalarNode
  | AliasNode
  deriving DecidableEq, Repr

/-- Modelled from the spec: a document node.  The spec's data model gives a
node a kind (map / list / scalar), a type tag, a literal scalar value, a
display/style attribute irrelevant to merge semantics, and attached comment
metadata.  Children are aligned and traversed by the external walker, which
is out of scope; the canonical rendering of a whole node is therefore kept
abstract (a `render` parameter below) rather than recomputed from children. -/
structure YNode where
  kind : Kind
  tag : String
  value : String
  style : Nat
  headComment : String
  lineComment : String
  footComment : String
  deriving DecidableEq, Repr

/-- The tag carried by an explicit null node (`yaml.NullNodeTag`). -/
def NullNodeTag : String := "!!null"

/-- `yaml.FlowStyle` bit flag. -/
def FlowStyle : Nat := 32

/-- `yaml.SingleQuotedStyle` bit flag. -/
def SingleQuotedStyle : Nat := 4

/-- The style override `yaml.FlowStyle | yaml.SingleQuotedStyle` applied by
`getStrValues` before rendering. -/
def canonicalStyle : Nat := FlowStyle ||| SingleQuotedStyle

/-- The `walk.Sources` triple: Origin, Updated and Dest references aligned
at one tree position, any of which may be absent (`none`). -/
structure Sources where
  origin : Option YNode
  updated : Option YNode
  dest : Option YNode
  deriving DecidableEq, Repr

/-- Result of one visit: either the Clear sentinel (`walk.ClearNode`) or a
node reference (`value none` is Go's nil `*RNode`, the scalar "no value"). -/
inductive VisitResult where
  | clear
  | value (n : Option YNode)
  deriving DecidableEq, Repr

/-- Modelled from the spec: `yaml.IsNull` — the position exists and holds an
explicit null value (the node's tag is the null tag).  The function's body
lives in `lib/yaml`, outside the provided source file. -/
def IsNull (n : Option YNode) : Bool :=
  match n with
  | some y => y.tag == NullNodeTag
  | none => false

/-- Modelled from the spec: `yaml.IsEmpty` — the position is absent from
this source's tree (nil reference / nil `YNode()`).  Distinct from
explicit-null: a null node is present, hence not empty.  The function's
body lives in `lib/yaml`, outside the provided source file. -/
def IsEmpty (n : Option YNode) : Bool := n.isNone

/-- `yaml.NewRNode(&yaml.Node{Kind: k})`: a freshly created node of kind
`k` with every other field zero-valued. -/
def newRNode (k : Kind) : YNode :=
  { kind := k, tag := "", value := "", style := 0,
    headComment := "", lineComment := "", footComment := "" }

/-- Literal value of a node reference (`YNode().Value`).  Evaluated only
where the Go code dereferences a reference both checks have already proved
non-empty. -/
def yValue (n : Option YNode) : String :=
  match n with
  | some y => y.value
  | none => ""

/-- `ConflictStrategy` with its single implemented variant `TakeUpdate`. -/
inductive ConflictStrategy where
  | TakeUpdate
  deriving DecidableEq, Repr

/-- Externally supplied classification of a list position (`walk.ListKind`). -/
inductive ListKind where
  | AssociativeList
  | NonAssociativeList
  deriving DecidableEq, Repr

/-- `Visitor.VisitMap`. -/
def VisitMap (nodes : Sources) : Except String VisitResult :=
  if IsNull nodes.updated || IsNull nodes.dest then
    -- explicitly cleared from either dest or update
    Except.ok VisitResult.clear
  else if IsEmpty nodes.dest && IsEmpty nodes.updated then
    -- implicitly cleared missing from both dest and update
    Except.ok VisitResult.clear
  else if IsEmpty nodes.dest then
    -- not cleared, but missing from the dest
    -- initialize a new value that can be recursively merged
    Except.ok (VisitResult.value (some (newRNode Kind.MappingNode)))
  else
    -- recursively merge the dest with the original and updated
    Except.ok (VisitResult.value nodes.dest)

/-- `Visitor.visitAList`. -/
def visitAList (nodes : Sources) : Except String VisitResult :=
  if IsEmpty nodes.updated && !IsEmpty nodes.origin then
    -- implicitly cleared from update -- element was deleted
    Except.ok VisitResult.clear
  else if IsEmpty nodes.dest then
    -- not cleared, but missing from the dest
    -- initialize a new value that can be recursively merged
    Except.ok (VisitResult.value (some (newRNode Kind.SequenceNode)))
  else
    -- recursively merge the dest with the original and updated
    Except.ok (VisitResult.value nodes.dest)

/-- `Visitor.VisitScalar`. -/
def VisitScalar (nodes : Sources) : Except String VisitResult :=
  if IsNull nodes.updated || IsNull nodes.dest then
    -- explicitly cleared from either dest or update
    Except.ok (VisitResult.value none)
  else if IsEmpty nodes.updated != IsEmpty nodes.origin then
    -- value added or removed in update
    Except.ok (VisitResult.value nodes.updated)
  else if IsEmpty nodes.updated && IsEmpty nodes.origin then
    -- value added or removed in update
    Except.ok (VisitResult.value nodes.dest)
  else if yValue nodes.updated != yValue nodes.origin then
    -- value changed in update
    Except.ok (VisitResult.value nodes.updated)
  else
    -- unchanged between origin and update, keep the dest
    Except.ok (VisitResult.value nodes.dest)

/-- The `strValues` record returned by `getStrValues`. -/
structure strValues where
  Origin : String
  Update : String
  Dest : String
  deriving DecidableEq, Repr

/-- Overwrite the style of a node reference, when present. -/
def setStyleOpt (n : Option YNode) (s : Nat) : Option YNode :=
  n.map fun y => { y with style := s }

/-- Third slot of `Visitor.getStrValues`: the Dest block.  If Dest is
present, its style is saved, overridden to the canonical style, the node is
rendered, and (the deferred restore) the saved style is written back before
returning — on the error path as well as on success. -/
def getStrValuesOnDest (render : YNode → Except String String)
    (nodes : Sources) (uStr oStr : String) : Sources × Except String strValues :=
  match nodes.dest with
  | none => (nodes, Except.ok { Origin := oStr, Update := uStr, Dest := "" })
  | some yd =>
    let s := yd.style
    let st := { nodes with dest := some { yd with style := canonicalStyle } }
    match render { yd with style := canonicalStyle } with
    | Except.error e =>
        ({ st with dest := setStyleOpt st.dest s }, Except.error e)
    | Except.ok dStr =>
        ({ st with dest := setStyleOpt st.dest s },
         Except.ok { Origin := oStr, Update := uStr, Dest := dStr })

/-- Second slot of `Visitor.getStrValues`: the Origin block, running the
Dest block inside the scope of Origin's deferred style restore (Go's defers
run last-registered-first, so Origin's restore applies after Dest's). -/
def getStrValuesOnOrigin (render : YNode → Except String String)
    (nodes : Sources) (uStr : String) : Sources × Except String strValues :=
  match nodes.origin with
  | none => getStrValuesOnDest render nodes uStr ""
  | some yo =>
    let s := yo.style
    let st := { nodes with origin := some { yo with style := canonicalStyle } }
    match render { yo with style := canonicalStyle } with
    | Except.error e =>
        ({ st with origin := setStyleOpt st.origin s }, Except.error e)
    | Except.ok oStr =>
        let r := getStrValuesOnDest render st uStr oStr
        ({ r.1 with origin := setStyleOpt r.1.origin s }, r.2)

/-- `Visitor.getStrValues`: renders Updated, Origin and Dest (in that
order) in canonical form — flow style, single-quoted — via a scoped style
override on each node, restored on every exit path.  The yaml marshaller
`RNode.String` is outside the provided source file and is passed in as the
`render` parameter; per the spec it fails only on malformed nodes. -/
def getStrValues (render : YNode → Except String String)
    (nodes : Sources) : Sources × Except String strValues :=
  match nodes.updated with
  | none => getStrValuesOnOrigin render nodes ""
  | some yu =>
    let s := yu.style
    let st := { nodes with updated := some { yu with style := canonicalStyle } }
    match render { yu with style := canonicalStyle } with
    | Except.error e =>
        ({ st with updated := setStyleOpt st.updated s }, Except.error e)
    | Except.ok uStr =>
        let r := getStrValuesOnOrigin render st uStr
        ({ r.1 with updated := setStyleOpt r.1.updated s }, r.2)

/-- `Visitor.visitNAList`.  The only rule that can fail: it propagates a
rendering error from `getStrValues`. -/
def visitNAList (render : YNode → Except String String)
    (nodes : Sources) : Sources × Except String VisitResult :=
  if IsNull nodes.updated || IsNull nodes.dest then
    -- explicitly cleared from either dest or update
    (nodes, Except.ok VisitResult.clear)
  else if IsEmpty nodes.updated != IsEmpty nodes.origin then
    -- value added or removed in update
    (nodes, Except.ok (VisitResult.value nodes.updated))
  else if IsEmpty nodes.updated && IsEmpty nodes.origin then
    -- value not present in source or dest
    (nodes, Except.ok (VisitResult.value nodes.dest))
  else
    -- compare origin and update values to see if they have changed
    match getStrValues render nodes with
    | (st, Except.error e) => (st, Except.error e)
    | (st, Except.ok values) =>
      if values.Update != values.Origin then
        -- value changed in update
        (st, Except.ok (VisitResult.value st.updated))
      else
        -- unchanged between origin and update, keep the dest
        (st, Except.ok (VisitResult.value st.dest))

/-- `Visitor.VisitList`: dispatch on the externally supplied list kind. -/
def VisitList (render : YNode → Except String String)
    (nodes : Sources) (kind : ListKind) : Sources × Except String VisitResult :=
  match kind with
  | ListKind.AssociativeList => (nodes, visitAList nodes)
  | ListKind.NonAssociativeList => visitNAList render nodes

deriving instance DecidableEq for Except

/-- A sample string scalar node. -/
def strScalar (v : String) : YNode :=
  { kind := Kind.ScalarNode, tag := "!!str", value := v, style := 0,
    headComment := "", lineComment := "", footComment := "" }

/-- A sample explicit-null node: present, with the null tag. -/
def nullScalar : YNode :=
  { kind := Kind.ScalarNode, tag := NullNodeTag, value := "null", style := 0,
    headComment := "", lineComment := "", footComment := "" }

/-- A sample sequence node carrying `v` as the payload seen by the sample
renderer below. -/
def seqVal (v : String) : YNode :=
  { kind := Kind.SequenceNode, tag := "!!seq", value := v, style := 0,
    headComment := "", lineComment := "", footComment := "" }

/-- A sample mapping node. -/
def mapVal : YNode :=
  { kind := Kind.MappingNode, tag := "!!map", value := "", style := 1,
    headComment := "", lineComment := "", footComment := "" }

/-- A sample renderer that always succeeds, returning the node's payload. -/
def renderValue : YNode → Except String String := fun y => Except.ok y.value

/-- A sample renderer that always fails, exercising the error paths. -/
def renderErr : YNode → Except String String := fun _ => Except.error "render failed"

/-- Input for the C1 counterexample: associative-list position, Updated
explicit-null, Dest still present. -/
def c1cex : Sources :=
  { origin := none, updated := some nullScalar, dest := some (seqVal "d") }

/-- Input for the C3 counterexample: Origin and Updated equal scalars,
Dest explicit-null. -/
def c3cex : Sources :=
  { origin := some (strScalar "a"), updated := some (strScalar "a"),
    dest := some nullScalar }

/-- Input for the C4 counterexample: Origin and Updated differ, Dest
explicit-null. -/
def c4cex : Sources :=
  { origin := some (strScalar "1"), updated := some (strScalar "2"),
    dest := some nullScalar }

/-- Input for the C5 counterexample: two equal non-associative lists,
Dest explicit-null. -/
def c5cex : Sources :=
  { origin := some (seqVal "s"), updated := some (seqVal "s"),
    dest := some nullScalar }

/-- Updated node for the C10 counterexample and witness: value `7` with
int tag, single-quoted style and a line comment. -/
def c10u : YNode :=
  { kind := Kind.ScalarNode, tag := "!!int", value := "7",
    style := SingleQuotedStyle, headComment := "", lineComment := "differs",
    footComment := "" }

/-- Origin node for the C10 counterexample and witness: value `7` with
string tag, plain style and a head comment. -/
def c10o : YNode :=
  { kind := Kind.ScalarNode, tag := "!!str", value := "7", style := 0,
    headComment := "old head", lineComment := "", footComment := "" }

/-- Input for the C10 counterexample: equal scalar values under differing
metadata, Dest explicit-null. -/
def c10cex : Sources :=
  { origin := some c10o, updated := some c10u, dest := some nullScalar }

/-- Witness input for C1: Updated explicit-null, Origin and Dest present. -/
def w1src : Sources :=
  { origin := some (strScalar "x"), updated := some nullScalar,
    dest := some (strScalar "y") }

/-- Witness input for C2: item present in Origin and Dest, gone from
Updated. -/
def w2src : Sources :=
  { origin := some (strScalar "item"), updated := none,
    dest := some (strScalar "item") }

/-- Witness input for C3: Origin and Updated agree, Dest locally edited. -/
def w3src : Sources :=
  { origin := some (strScalar "same"), updated := some (strScalar "same"),
    dest := some (strScalar "local") }

/-- Witness input for C4: Updated differs from Origin, Dest differs from
both. -/
def w4src : Sources :=
  { origin := some (strScalar "1"), updated := some (strScalar "2"),
    dest := some (strScalar "9") }

/-- Witness input for C5: list changed upstream, Dest locally edited. -/
def w5src : Sources :=
  { origin := some (seqVal "old"), updated := some (seqVal "new"),
    dest := some (seqVal "mine") }

/-- Witness input for C6: Dest absent, Updated a present non-null map. -/
def w6src : Sources :=
  { origin := some (strScalar "o"), updated := some mapVal, dest := none }

/-- Witness input for C8's error case: three present lists, failing
renderer. -/
def c8src : Sources :=
  { origin := some (seqVal "a"), updated := some (seqVal "a"),
    dest := some (seqVal "a") }

/-- Witness input for C9: all three sources absent. -/
def w9src : Sources := { origin := none, updated := none, dest := none }

/-- Witness input for C10: equal values, differing tags, styles and
comments, Dest a present non-null scalar. -/
def w10src : Sources :=
  { origin := some c10o, updated := some c10u, dest := some (strScalar "9") }

theorem getStrValuesOnDest_state (render : YNode → Except String String)
    (nodes : Sources) (uStr oStr : String) :
    (getStrValuesOnDest render nodes uStr oStr).1 = nodes := by
  unfold getStrValuesOnDest
  cases hd : nodes.dest with
  | none => rfl
  | some yd =>
    cases hr : render { yd with style := canonicalStyle } <;>
      simp [setStyleOpt, hr, ← hd]

theorem getStrValuesOnOrigin_state (render : YNode → Except String String)
    (nodes : Sources) (uStr : String) :
    (getStrValuesOnOrigin render nodes uStr).1 = nodes := by
  unfold getStrValuesOnOrigin
  cases ho : nodes.origin with
  | none => exact getStrValuesOnDest_state render nodes uStr ""
  | some yo =>
    cases hr : render { yo with style := canonicalStyle } <;>
      simp [getStrValuesOnDest_state, setStyleOpt, hr, ← ho]

theorem getStrValues_state (render : YNode → Except String String)
    (nodes : Sources) :
    (getStrValues render nodes).1 = nodes := by
  unfold getStrValues
  cases hu : nodes.updated with
  | none => exact getStrValuesOnOrigin_state render nodes ""
  | some yu =>
    cases hr : render { yu with style := canonicalStyle } <;>
      simp [getStrValuesOnOrigin_state, setStyleOpt, hr, ← hu]

/-- Claim C1 (amended): for every Sources triple, if Updated or Dest is
explicit-null, the map rule and the non-associative-list rule return the
Clear sentinel and the scalar rule returns no value; the associative-list
rule performs no explicit-null check (see its counterexample). -/
theorem explicit_null_dominance_map_nalist_scalar
    (render : YNode → Except String String) (nodes : Sources)
    (h : (IsNull nodes.updated || IsNull nodes.dest) = true) :
    VisitMap nodes = Except.ok VisitResult.clear ∧
    visitNAList render nodes = (nodes, Except.ok VisitResult.clear) ∧
    VisitScalar nodes = Except.ok (VisitResult.value none) := by
  refine ⟨?_, ?_, ?_⟩ <;> simp [VisitMap, visitNAList, VisitScalar, h]

/-- Refutation of claim C1 as stated: at an associative-list position with
an explicit-null Updated, the rule returns Dest, not Clear. -/
theorem alist_explicit_null_not_cleared :
    IsNull c1cex.updated = true ∧
    visitAList c1cex ≠ Except.ok VisitResult.clear := by decide

/-- Witness for C1's amended theorem at a concrete triple with an
explicit-null Updated. -/
theorem explicit_null_dominance_witness :
    VisitMap w1src = Except.ok VisitResult.clear ∧
    visitNAList renderValue w1src = (w1src, Except.ok VisitResult.clear) ∧
    VisitScalar w1src = Except.ok (VisitResult.value none) :=
  explicit_null_dominance_map_nalist_scalar renderValue w1src (by decide)

/-- Claim C2: at an associative-list item position where the item is
present in Origin and absent from Updated, the rule returns Clear, for
every Dest. -/
theorem alist_deletion_propagation (nodes : Sources) (yo : YNode)
    (ho : nodes.origin = some yo) (hon : yo.tag ≠ NullNodeTag)
    (hu : IsEmpty nodes.updated = true) :
    visitAList nodes = Except.ok VisitResult.clear := by
  have h1 : IsEmpty nodes.origin = false := by simp [IsEmpty, ho]
  simp [visitAList, hu, h1]

/-- Witness for C2 at a concrete triple where Dest still holds the item. -/
theorem alist_deletion_propagation_witness :
    visitAList w2src = Except.ok VisitResult.clear :=
  alist_deletion_propagation w2src (strScalar "item") rfl (by decide) (by decide)

/-- Claim C3 (amended): for scalars with Origin and Updated both present,
non-null and of equal literal value, the rule returns Dest — provided Dest
is not explicit-null (in that case the rule returns no value instead, see
the counterexample). -/
theorem scalar_noop_keeps_dest (nodes : Sources)
    (hue : IsEmpty nodes.updated = false) (hun : IsNull nodes.updated = false)
    (hoe : IsEmpty nodes.origin = false) (hon : IsNull nodes.origin = false)
    (hdn : IsNull nodes.dest = false)
    (hv : yValue nodes.updated = yValue nodes.origin) :
    VisitScalar nodes = Except.ok (VisitResult.value nodes.dest) := by
  simp [VisitScalar, hue, hun, hoe, hdn, hv]

/-- Refutation of claim C3 as stated: equal Origin and Updated scalars but
an explicit-null Dest yield no value, not Dest. -/
theorem scalar_noop_null_dest_cex :
    IsEmpty c3cex.updated = false ∧ IsNull c3cex.updated = false ∧
    IsEmpty c3cex.origin = false ∧ IsNull c3cex.origin = false ∧
    yValue c3cex.updated = yValue c3cex.origin ∧
    VisitScalar c3cex ≠ Except.ok (VisitResult.value c3cex.dest) ∧
    VisitScalar c3cex = Except.ok (VisitResult.value none) := by decide

/-- Witness for C3's amended theorem: a no-op update keeps the local
edit. -/
theorem scalar_noop_keeps_dest_witness :
    VisitScalar w3src = Except.ok (VisitResult.value w3src.dest) :=
  scalar_noop_keeps_dest w3src (by decide) (by decide) (by decide) (by decide)
    (by decide) (by decide)

/-- Claim C4 (amended): for scalars with Origin and Updated present and
differing literal values, the rule returns Updated — provided neither
Updated nor Dest is explicit-null (in that case the rule returns no value
first, see the counterexample). -/
theorem scalar_fast_forward (nodes : Sources) (yu yo : YNode)
    (hu : nodes.updated = some yu) (ho : nodes.origin = some yo)
    (hun : yu.tag ≠ NullNodeTag) (hdn : IsNull nodes.dest = false)
    (hv : yu.value ≠ yo.value) :
    VisitScalar nodes = Except.ok (VisitResult.value nodes.updated) := by
  have h1 : IsNull nodes.updated = false := by simp [IsNull, hu, hun]
  have h2 : IsEmpty nodes.updated = false := by simp [IsEmpty, hu]
  have h3 : IsEmpty nodes.origin = false := by simp [IsEmpty, ho]
  have h4 : yValue nodes.updated ≠ yValue nodes.origin := by
    simp [yValue, hu, ho, hv]
  simp [VisitScalar, h1, h2, h3, h4, hdn]

/-- Refutation of claim C4 as stated: differing Origin and Updated values
but an explicit-null Dest yield no value, not Updated. -/
theorem scalar_fast_forward_null_dest_cex :
    yValue c4cex.updated ≠ yValue c4cex.origin ∧
    VisitScalar c4cex ≠ Except.ok (VisitResult.value c4cex.updated) ∧
    VisitScalar c4cex = Except.ok (VisitResult.value none) := by decide

/-- Witness for C4's amended theorem: an upstream change overrides the
local edit. -/
theorem scalar_fast_forward_witness :
    VisitScalar w4src = Except.ok (VisitResult.value w4src.updated) :=
  scalar_fast_forward w4src (strScalar "2") (strScalar "1") rfl rfl
    (by decide) (by decide) (by decide)

/-- Claim C5 (amended): for non-associative lists with Origin and Updated
both present and non-null, and Dest not explicit-null (in that case the
rule returns Clear without rendering, see the counterexample), when the
canonical renderer succeeds the rule returns Updated if the canonical
strings of Updated and Origin differ and returns Dest unchanged if they
are equal. -/
theorem nalist_canonical_compare (render : YNode → Except String String)
    (nodes : Sources) (values : strValues)
    (hue : IsEmpty nodes.updated = false) (hun : IsNull nodes.updated = false)
    (hoe : IsEmpty nodes.origin = false) (hon : IsNull nodes.origin = false)
    (hdn : IsNull nodes.dest = false)
    (hg : (getStrValues render nodes).2 = Except.ok values) :
    (values.Update ≠ values.Origin →
      (visitNAList render nodes).2 = Except.ok (VisitResult.value nodes.updated)) ∧
    (values.Update = values.Origin →
      (visitNAList render nodes).2 = Except.ok (VisitResult.value nodes.dest)) := by
  have hst : (getStrValues render nodes).1 = nodes := getStrValues_state render nodes
  have hprod : getStrValues render nodes = (nodes, Except.ok values) := by
    rw [Prod.ext_iff]
    exact ⟨hst, hg⟩
  constructor <;> intro hv <;>
    simp [visitNAList, hue, hun, hoe, hdn, hprod, hv]

/-- Refutation of claim C5 as stated: two canonically equal lists with an
explicit-null Dest yield Clear, not Dest. -/
theorem nalist_null_dest_cex :
    IsEmpty c5cex.updated = false ∧ IsNull c5cex.updated = false ∧
    IsEmpty c5cex.origin = false ∧ IsNull c5cex.origin = false ∧
    (getStrValues renderValue c5cex).2 =
      Except.ok { Origin := "s", Update := "s", Dest := "null" } ∧
    (visitNAList renderValue c5cex).2 ≠ Except.ok (VisitResult.value c5cex.dest) ∧
    (visitNAList renderValue c5cex).2 = Except.ok VisitResult.clear := by decide

/-- Witness for C5's amended theorem: canonical strings differ, so Updated
wins. -/
theorem nalist_canonical_compare_witness :
    (visitNAList renderValue w5src).2 = Except.ok (VisitResult.value w5src.updated) :=
  (nalist_canonical_compare renderValue w5src
      { Origin := "old", Update := "new", Dest := "mine" }
      (by decide) (by decide) (by decide) (by decide) (by decide) rfl).1 (by decide)

/-- Claim C6: at a map position with Dest absent and Updated present and
non-null, the rule returns the freshly created empty map node — the
zero-valued mapping node, fixed independently of Origin's and Updated's
values — as the merge seed. -/
theorem map_missing_dest_fresh_map (nodes : Sources) (yu : YNode)
    (hd : nodes.dest = none) (hu : nodes.updated = some yu)
    (hun : yu.tag ≠ NullNodeTag) :
    VisitMap nodes = Except.ok (VisitResult.value (some (newRNode Kind.MappingNode))) := by
  simp [VisitMap, IsNull, IsEmpty, hd, hu, hun]

/-- Witness for C6 at a concrete triple with a present non-null Updated
map and absent Dest. -/
theorem map_missing_dest_fresh_map_witness :
    VisitMap w6src = Except.ok (VisitResult.value (some (newRNode Kind.MappingNode))) :=
  map_missing_dest_fresh_map w6src mapVal rfl rfl (by decide)

/-- Claim C7: for every renderer and every Sources triple, the canonical
comparator leaves each input node's stored style attribute equal to its
value before the call — on every exit path, the rendering-failure path
included, since the renderer is arbitrary here. -/
theorem getStrValues_restores_style (render : YNode → Except String String)
    (nodes : Sources) :
    (getStrValues render nodes).1.origin.map YNode.style =
      nodes.origin.map YNode.style ∧
    (getStrValues render nodes).1.updated.map YNode.style =
      nodes.updated.map YNode.style ∧
    (getStrValues render nodes).1.dest.map YNode.style =
      nodes.dest.map YNode.style := by
  simp [getStrValues_state]

/-- Claim C8: the map, associative-list and scalar rules return a nil
error on every input, while the non-associative-list rule can return a
rendering error. -/
theorem error_free_rules :
    (∀ nodes : Sources, ∃ r, VisitMap nodes = Except.ok r) ∧
    (∀ nodes : Sources, ∃ r, visitAList nodes = Except.ok r) ∧
    (∀ nodes : Sources, ∃ r, VisitScalar nodes = Except.ok r) ∧
    (∃ render : YNode → Except String String, ∃ nodes : Sources, ∃ e : String,
      (visitNAList render nodes).2 = Except.error e) := by
  refine ⟨fun nodes => ?_, fun nodes => ?_, fun nodes => ?_,
    ⟨renderErr, c8src, "render failed", ?_⟩⟩
  · unfold VisitMap
    repeat' split
    all_goals exact ⟨_, rfl⟩
  · unfold visitAList
    repeat' split
    all_goals exact ⟨_, rfl⟩
  · unfold VisitScalar
    repeat' split
    all_goals exact ⟨_, rfl⟩
  · rfl

/-- Claim C9: at an associative-list position where Origin, Updated and
Dest are all absent, the rule returns a freshly created empty list node
and not Clear, whereas the map rule returns Clear on the same triple. -/
theorem alist_all_absent_fresh_list (nodes : Sources)
    (ho : nodes.origin = none) (hu : nodes.updated = none)
    (hd : nodes.dest = none) :
    visitAList nodes = Except.ok (VisitResult.value (some (newRNode Kind.SequenceNode))) ∧
    visitAList nodes ≠ Except.ok VisitResult.clear ∧
    VisitMap nodes = Except.ok VisitResult.clear := by
  refine ⟨?_, ?_, ?_⟩ <;> simp [visitAList, VisitMap, IsEmpty, IsNull, ho, hu, hd]

/-- Witness for C9 at the all-absent triple. -/
theorem alist_all_absent_fresh_list_witness :
    visitAList w9src = Except.ok (VisitResult.value (some (newRNode Kind.SequenceNode))) ∧
    visitAList w9src ≠ Except.ok VisitResult.clear ∧
    VisitMap w9src = Except.ok VisitResult.clear :=
  alist_all_absent_fresh_list w9src rfl rfl rfl

/-- Claim C10 (amended): scalar change detection compares only the literal
value strings — for Origin and Updated present, non-null and of equal
value, the rule returns Dest whatever their kinds, tags, comments and
styles are, provided Dest is not explicit-null (in that case the rule
returns no value instead, see the counterexample). -/
theorem scalar_compares_only_value (nodes : Sources) (yu yo : YNode)
    (hu : nodes.updated = some yu) (ho : nodes.origin = some yo)
    (hun : yu.tag ≠ NullNodeTag) (hon : yo.tag ≠ NullNodeTag)
    (hdn : IsNull nodes.dest = false) (hv : yu.value = yo.value) :
    VisitScalar nodes = Except.ok (VisitResult.value nodes.dest) := by
  have h1 : IsNull nodes.updated = false := by simp [IsNull, hu, hun]
  have h2 : IsEmpty nodes.updated = false := by simp [IsEmpty, hu]
  have h3 : IsEmpty nodes.origin = false := by simp [IsEmpty, ho]
  have h4 : yValue nodes.updated = yValue nodes.origin := by
    simp [yValue, hu, ho, hv]
  simp [VisitScalar, h1, h2, h3, h4, hdn]

/-- Refutation of claim C10 as stated: equal values under differing
metadata but an explicit-null Dest yield no value, not Dest. -/
theorem scalar_value_only_null_dest_cex :
    c10u.value = c10o.value ∧ c10u.tag ≠ c10o.tag ∧ c10u.style ≠ c10o.style ∧
    c10u.lineComment ≠ c10o.lineComment ∧
    c10u.tag ≠ NullNodeTag ∧ c10o.tag ≠ NullNodeTag ∧
    VisitScalar c10cex ≠ Except.ok (VisitResult.value c10cex.dest) := by decide

/-- Witness for C10's amended theorem: tags, styles and comments differ
between Origin and Updated, yet Dest is kept. -/
theorem scalar_compares_only_value_witness :
    c10u.tag ≠ c10o.tag ∧ c10u.style ≠ c10o.style ∧
    c10u.lineComment ≠ c10o.lineComment ∧
    VisitScalar w10src = Except.ok (VisitResult.value w10src.dest) :=
  ⟨by decide, by decide, by decide,
    scalar_compares_only_value w10src c10u c10o rfl rfl (by decide) (by decide)
      (by decide) (by decide)⟩

end merge3
